import Mathlib

/-!
Verification of the panic/escort coordination frontend.

Shallow embedding of the TypeScript source files:
* `frontend/app/civil/panic-active.tsx` — category routing, activation,
  resume of an active panic, foreground tracking, deactivation (markSafe);
* `unnamed/part_003` — PIN-locked panic screen: checkPanicState,
  handlePinInput, handleWrongPin, deactivatePanicMode;
* `unnamed/part_000` — responder-side track view: loadTrackData's merge of
  the stored location history;
* `unnamed/part_001` — enhanced video report: submitReport, saveReportLocally;
* `unnamed/part_002` and `frontend/app/report/audio.tsx` — legacy video and
  audio report submission with their location fallback;
* `frontend/app/escort.tsx` — escort tracking loop.

Machine times are modelled as naturals (milliseconds since epoch),
coordinates as rationals.
-/

/-- Emergency categories, from `EmergencyCategoryModal` / `EMERGENCY_CATEGORIES`
(`unnamed/part_000`, `panic-active.tsx`). -/
inductive Category
  | violence
  | robbery
  | kidnapping
  | breakin
  | harassment
  | medical
  | fire
  | other
deriving DecidableEq, Repr

/-- The `SECURITY_EMERGENCIES` list of `panic-active.tsx` line 58: categories
that activate a panic session and notify agencies. -/
def SECURITY_EMERGENCIES : List Category :=
  [Category.violence, Category.robbery, Category.kidnapping,
   Category.breakin, Category.harassment, Category.other]

/-- The two emergency-contact lists of `EMERGENCY_SERVICES`
(`panic-active.tsx` lines 46-55). -/
inductive ContactList
  | ambulance
  | fire
deriving DecidableEq, Repr

/-- Outcome of the category routing in `handleCategorySelect`
(`panic-active.tsx` lines 108-121): either an emergency-service contact
display is shown, or `activatePanicMode` is invoked, or nothing happens. -/
inductive CategoryRoute
  | showContacts : ContactList → CategoryRoute
  | activatePanic : Category → CategoryRoute
  | noRoute
deriving DecidableEq, Repr

/-- Embedding of `handleCategorySelect` (`panic-active.tsx` lines 108-121):
medical shows ambulance contacts, fire shows fire contacts, a category in
`SECURITY_EMERGENCIES` invokes `activatePanicMode`. -/
def handleCategorySelect (c : Category) : CategoryRoute :=
  if c = Category.medical then CategoryRoute.showContacts ContactList.ambulance
  else if c = Category.fire then CategoryRoute.showContacts ContactList.fire
  else if c ∈ SECURITY_EMERGENCIES then CategoryRoute.activatePanic c
  else CategoryRoute.noRoute

/-- GPS coordinates of a position fix. -/
structure Coords where
  lat : Rat
  lng : Rat
deriving DecidableEq, Repr

/-- Client environment consulted by `activatePanicMode`
(`panic-active.tsx` lines 128-199): whether the foreground location
permission was granted, the GPS fix returned by `getCurrentPositionAsync`
(none when the call throws — location services off or timed out), and the
stored auth token (if any). -/
structure ActivationEnv where
  foregroundGranted : Bool
  gpsFix : Option Coords
  token : Option String
deriving DecidableEq, Repr

/-- Number of `POST /api/panic/activate` calls issued by `activatePanicMode`
(`panic-active.tsx` lines 128-199): the function returns before the request
when the location permission is denied (line 131), when
`getCurrentPositionAsync` (line 139) throws to the catch at line 188 before
any POST, or when no token is stored (line 142); otherwise exactly one
activation request is sent (line 148). -/
def activatePanicMode_activateCalls (env : ActivationEnv) : Nat :=
  if env.foregroundGranted then
    match env.gpsFix with
    | none => 0
    | some _ => if env.token.isSome then 1 else 0
  else 0

/-- Backend session-activation calls issued by a category route: only the
`activatePanic` branch reaches `activatePanicMode`; the contact display
performs no backend call. -/
def routeActivateCalls (env : ActivationEnv) : CategoryRoute → Nat
  | CategoryRoute.activatePanic _ => activatePanicMode_activateCalls env
  | _ => 0

/-- The locally persisted record of an active panic, written by
`activatePanicMode` to AsyncStorage key `active_panic`
(`panic-active.tsx` lines 164-168). -/
structure PanicData where
  id : String
  category : Category
deriving DecidableEq, Repr

/-- Device-local AsyncStorage state consulted by `checkActivePanic`. -/
structure LocalStore where
  active_panic : Option PanicData
deriving DecidableEq, Repr

/-- What the panic screen shows after load, and how many activation POSTs
were issued getting there. -/
structure PanicScreenResult where
  panicId : Option String
  isTracking : Bool
  showCategoryModal : Bool
  activateCalls : Nat
deriving DecidableEq, Repr

/-- Embedding of `checkActivePanic` (`panic-active.tsx` lines 80-100): if an
`active_panic` record is stored, the screen resumes that session (same id,
tracking on, no category modal) without any backend activation call. -/
def checkActivePanic (store : LocalStore) : PanicScreenResult :=
  match store.active_panic with
  | some pd =>
      { panicId := some pd.id, isTracking := true,
        showCategoryModal := false, activateCalls := 0 }
  | none =>
      { panicId := none, isTracking := false,
        showCategoryModal := true, activateCalls := 0 }

/-- State effect of a successful `activatePanicMode` run
(`panic-active.tsx` lines 148-173): one activation POST, the returned
`panic_id` becomes the current session id, and the `active_panic` record is
persisted for later resumes. -/
def activatePanicModeRun (store : LocalStore) (newId : String) (c : Category) :
    PanicScreenResult × LocalStore :=
  ({ panicId := some newId, isTracking := true,
     showCategoryModal := false, activateCalls := 1 },
   { store with active_panic := some { id := newId, category := c } })

/-- One visit to the panic screen: `checkActivePanic` resumes a stored
session without activating; otherwise the user's category selection runs
`activatePanicMode` (success path), persisting the new session. -/
def openPanicScreen (store : LocalStore) (newId : String) (c : Category) :
    PanicScreenResult × LocalStore :=
  match store.active_panic with
  | some pd =>
      ({ panicId := some pd.id, isTracking := true,
         showCategoryModal := false, activateCalls := 0 }, store)
  | none => activatePanicModeRun store newId c

/-- Screens of the PIN-locked panic page (`unnamed/part_003` line 39). -/
inductive Screen
  | activating
  | active
  | pin_entry
  | disguise
deriving DecidableEq, Repr

/-- Embedding of the screen decision in `checkPanicState`
(`unnamed/part_003` lines 85-100): when the device locally believes a panic
is active (`panic_active = 'true'`), the PIN entry screen is shown; otherwise
a fresh activation starts on the `activating` screen. -/
def checkPanicStateScreen (panicActive : Bool) : Screen :=
  if panicActive then Screen.pin_entry else Screen.activating

/-- Activation POSTs issued by `checkPanicState` (`unnamed/part_003`
lines 85-100): zero when resuming a believed-active session (only the PIN
screen is shown); one (on the success path of `activatePanicMode`,
lines 114-154) when starting fresh. -/
def checkPanicState_activateCalls (panicActive : Bool) : Nat :=
  if panicActive then 0 else 1

/-- One element of the responder-side location history
(`unnamed/part_000`, interface `LocationEntry`). Timestamps are epoch
milliseconds; coordinates are rationals. -/
structure LocationEntry where
  latitude : Rat
  longitude : Rat
  timestamp : Nat
  accuracy : Option Rat
deriving DecidableEq, Repr

/-- Comparator of the `merged.sort((a, b) => b.timestamp - a.timestamp)` call
in `loadTrackData` (`unnamed/part_000` line 91): `a` comes no later than `b`
in the sorted output when `b`'s timestamp is at most `a`'s (descending,
newest first). -/
def histOrder (a b : LocationEntry) : Prop := b.timestamp ≤ a.timestamp

instance : DecidableRel histOrder := fun a b => Nat.decLe b.timestamp a.timestamp

instance : IsTotal LocationEntry histOrder :=
  ⟨fun a b => Nat.le_total b.timestamp a.timestamp⟩

instance : IsTrans LocationEntry histOrder :=
  ⟨fun _ _ _ hab hbc => Nat.le_trans hbc hab⟩

/-- Embedding of the `setLocationHistory` update in `loadTrackData`
(`unnamed/part_000` lines 84-93): entries whose exact timestamp is already
stored are filtered out; if nothing new remains the stored list is kept;
otherwise the new entries are appended and the whole list re-sorted by the
descending-timestamp comparator. (Timestamps are unique in the stored list,
so the sort order does not depend on tie-breaking.) -/
def newLocationEntries (prev incoming : List LocationEntry) : List LocationEntry :=
  incoming.filter (fun l => l.timestamp ∉ prev.map (fun l => l.timestamp))

/-- Second half of the `setLocationHistory` update: if nothing new remains
the stored list is returned unchanged, otherwise the new entries are appended
and the whole list re-sorted with the descending-timestamp comparator. -/
def mergeLocationHistory (prev incoming : List LocationEntry) : List LocationEntry :=
  if newLocationEntries prev incoming = [] then prev
  else List.insertionSort histOrder (prev ++ newLocationEntries prev incoming)

/-- PIN screen state of `unnamed/part_003`: current screen, entered digits
(left to right), error message, and wrong-attempt counter. -/
structure PinState where
  screen : Screen
  pinDigits : List (Fin 10)
  pinError : String
  wrongAttempts : Nat
deriving DecidableEq, Repr

/-- The default PIN accepted when no `security_pin` is stored
(`unnamed/part_003` line 236). -/
def pin1234 : List (Fin 10) := [1, 2, 3, 4]

/-- PIN comparison of `handlePinInput` (`unnamed/part_003` lines 233-249):
with no stored PIN, exactly "1234" is accepted; otherwise the stored PIN. -/
def pinAccepts (stored : Option (List (Fin 10))) (entered : List (Fin 10)) : Bool :=
  match stored with
  | none => entered == pin1234
  | some p => entered == p

/-- Embedding of `handleWrongPin` (`unnamed/part_003` lines 253-265): the
wrong-attempt counter is incremented and the digits cleared; at 2 attempts
the error is cleared and the disguise screen shown, otherwise an error
message is displayed. -/
def handleWrongPin (st : PinState) : PinState :=
  let attempts := st.wrongAttempts + 1
  if 2 ≤ attempts then
    { st with
      wrongAttempts := attempts
      pinDigits := []
      pinError := ""
      screen := Screen.disguise }
  else
    { st with
      wrongAttempts := attempts
      pinDigits := []
      pinError := "Incorrect PIN. Try again." }

/-- Embedding of `handlePinInput` (`unnamed/part_003` lines 223-251): a digit
fills the first empty slot (no-op when all four are filled); once four digits
are entered the PIN is checked — on success digits and error are cleared and
the active screen shown (the wrong-attempt counter is left as it is), on
failure `handleWrongPin` runs. -/
def handlePinInput (stored : Option (List (Fin 10))) (st : PinState) (d : Fin 10) :
    PinState :=
  if 4 ≤ st.pinDigits.length then st
  else
    let digits := st.pinDigits ++ [d]
    if digits.length = 4 then
      if pinAccepts stored digits then
        { st with pinDigits := [], pinError := "", screen := Screen.active }
      else
        handleWrongPin { st with pinDigits := digits }
    else
      { st with pinDigits := digits }

/-- React Native application states observed by the AppState listener. -/
inductive RNAppState
  | active
  | background
  | inactive
deriving DecidableEq, Repr

/-- Embedding of the AppState listener of `unnamed/part_003` lines 57-65: on
a transition from inactive/background to active while `panic_active` is
stored as true, the screen is forced to PIN entry; otherwise it is left
unchanged. -/
def onAppStateChange (panicActive : Bool) (prev next : RNAppState) (scr : Screen) :
    Screen :=
  if (prev = RNAppState.inactive ∨ prev = RNAppState.background) ∧
      next = RNAppState.active then
    if panicActive then Screen.pin_entry else scr
  else scr

/-- User-visible and device-local effects of the two deactivation handlers,
in the order the source performs them. -/
inductive Effect
  | clearTrackingTimer
  | clearElapsedTimer
  | stopBackgroundUpdates
  | postDeactivate
  | clearLocalState
  | confirmStopped
  | showError
deriving DecidableEq, Repr

/-- Effect trace of `deactivatePanicMode` (`unnamed/part_003` lines 184-206):
the foreground interval and elapsed timers are cleared first (when present),
background updates stopped, then the backend deactivation POST (if a token is
stored) which may fail, then local state removal and the safe confirmation;
a thrown error reaches the catch that shows the failure alert instead. -/
def deactivatePanicMode (hasTimer hasElapsed : Bool) (token : Option String)
    (postOk : Bool) : List Effect :=
  let pre := (if hasTimer then [Effect.clearTrackingTimer] else []) ++
    (if hasElapsed then [Effect.clearElapsedTimer] else []) ++
    [Effect.stopBackgroundUpdates]
  match token, postOk with
  | some _, false => pre ++ [Effect.postDeactivate, Effect.showError]
  | some _, true =>
      pre ++ [Effect.postDeactivate, Effect.clearLocalState, Effect.confirmStopped]
  | none, _ => pre ++ [Effect.clearLocalState, Effect.confirmStopped]

/-- Effect trace of the confirmed branch of `markSafe`
(`panic-active.tsx` lines 248-281): the foreground interval timer is cleared
(when present), background tracking stopped, the deactivation POST issued if
a token is stored (a failure reaches the catch and shows the error alert),
then local state cleared and the safe confirmation alert shown. -/
def markSafeConfirm (hasTimer : Bool) (token : Option String) (postOk : Bool) :
    List Effect :=
  let pre := (if hasTimer then [Effect.clearTrackingTimer] else []) ++
    [Effect.stopBackgroundUpdates]
  match token, postOk with
  | some _, false => pre ++ [Effect.postDeactivate, Effect.showError]
  | some _, true =>
      pre ++ [Effect.postDeactivate, Effect.clearLocalState, Effect.confirmStopped]
  | none, _ => pre ++ [Effect.clearLocalState, Effect.confirmStopped]

/-- Scans a trace left to right: true unless a `confirmStopped` effect occurs
before the first `clearTrackingTimer` effect. -/
def clearedBeforeConfirm : List Effect → Bool
  | [] => true
  | Effect.clearTrackingTimer :: _ => true
  | Effect.confirmStopped :: _ => false
  | _ :: tr => clearedBeforeConfirm tr

/-- The hard-coded fallback coordinate `{ latitude: 9.0820, longitude: 8.6753 }`
used by `report/audio.tsx` (lines 89, 92, 153) and `unnamed/part_002`
(line 195) when no geolocation is available. -/
def defaultCoords : Coords := { lat := 9082 / 1000, lng := 86753 / 10000 }

/-- Location used by the audio report's `submitReport`
(`report/audio.tsx` lines 148-155): the location already held in state, else
a fresh GPS fix, else the hard-coded default coordinate. The same fallback
chain appears in `unnamed/part_002` lines 190-197. -/
def audioResolveLocation (stateLoc gpsFix : Option Coords) : Coords :=
  match stateLoc with
  | some l => l
  | none =>
      match gpsFix with
      | some g => g
      | none => defaultCoords

/-- Outcome of the audio report's `submitReport`
(`report/audio.tsx` lines 140-204): with a recording present, the resolved
location (default coordinate included) is submitted whenever a token is
stored; there is no location-required rejection. -/
inductive AudioSubmitOutcome
  | submitted : Coords → AudioSubmitOutcome
  | redirectLogin
deriving DecidableEq, Repr

/-- Embedding of the audio report's `submitReport` given a recorded clip
(`report/audio.tsx` lines 140-179). -/
def audioSubmitReport (stateLoc gpsFix : Option Coords) (token : Option String) :
    AudioSubmitOutcome :=
  let loc := audioResolveLocation stateLoc gpsFix
  match token with
  | none => AudioSubmitOutcome.redirectLogin
  | some _ => AudioSubmitOutcome.submitted loc

/-- Outcome of the enhanced video report's `submitReport`
(`unnamed/part_001` lines 245-392). -/
inductive VideoSubmitOutcome
  | locationRequired
  | offlineSavePrompt
  | redirectLogin
  | uploaded : Coords → VideoSubmitOutcome
  | uploadFailedSavePrompt
deriving DecidableEq, Repr

/-- Embedding of the enhanced video report's `submitReport`
(`unnamed/part_001` lines 245-392), given a recorded video of valid duration:
without a location in state it attempts a fresh GPS fix and rejects with the
location-required alert if none is obtained (lines 273-292); when offline it
prompts to save locally (lines 295-306); otherwise it uploads, and an upload
failure prompts to save locally (lines 381-387). -/
def videoSubmitReport (stateLoc gpsFix : Option Coords) (isOnline : Bool)
    (token : Option String) (uploadOk : Bool) : VideoSubmitOutcome :=
  let loc := match stateLoc with
    | some l => some l
    | none => gpsFix
  match loc with
  | none => VideoSubmitOutcome.locationRequired
  | some l =>
      if !isOnline then VideoSubmitOutcome.offlineSavePrompt
      else
        match token with
        | none => VideoSubmitOutcome.redirectLogin
        | some _ =>
            if uploadOk then VideoSubmitOutcome.uploaded l
            else VideoSubmitOutcome.uploadFailedSavePrompt

/-- True for the outcomes in which the user is offered the option to save the
report to the local pending queue. -/
def offersLocalSave : VideoSubmitOutcome → Bool
  | VideoSubmitOutcome.offlineSavePrompt => true
  | VideoSubmitOutcome.uploadFailedSavePrompt => true
  | _ => false

/-- An entry of the `pending_video_reports` queue written by
`saveReportLocally` (`unnamed/part_001` lines 395-425). -/
structure PendingReport where
  id : String
  uri : Option String
  caption : String
  is_anonymous : Bool
  latitude : Rat
  longitude : Rat
  accuracy : Rat
  duration_seconds : Nat
  created_at : String
  upload_status : String
deriving DecidableEq, Repr

/-- A position fix with its accuracy, as held in the video report's state. -/
structure LocFix where
  coords : Coords
  accuracy : Option Rat
deriving DecidableEq, Repr

/-- Embedding of `saveReportLocally` (`unnamed/part_001` lines 395-425): one
entry with the full payload metadata and `upload_status = 'pending'` is
appended to the stored `pending_video_reports` list; a missing caption
defaults to the standard text and missing coordinates to zero. -/
def saveReportLocally (pending : List PendingReport) (nowId createdAt : String)
    (uri : Option String) (caption : String) (anonymous : Bool)
    (loc : Option LocFix) (duration : Nat) : List PendingReport :=
  pending ++
    [{ id := nowId
       uri := uri
       caption := if caption = "" then "Live security report" else caption
       is_anonymous := anonymous
       latitude := match loc with
         | some l => l.coords.lat
         | none => 0
       longitude := match loc with
         | some l => l.coords.lng
         | none => 0
       accuracy := match loc with
         | some l => match l.accuracy with
           | some a => a
           | none => 0
         | none => 0
       duration_seconds := duration
       created_at := createdAt
       upload_status := "pending" }]

/-- Sampling interval of the foreground `setInterval` loop in
`startLocationTracking` of `panic-active.tsx` (line 221): the literal 30000 ms
for every token. -/
def panicForegroundIntervalMs (_token : String) : Nat := 30000

/-- Sampling interval (`timeInterval`) of the background
`startLocationUpdatesAsync` call in `panic-active.tsx` (line 227). -/
def panicBackgroundIntervalMs (_token : String) : Nat := 30000

/-- Sampling interval of the foreground `setInterval` loop in
`startLocationTracking` of `unnamed/part_003` (line 168). -/
def pinPanicIntervalMs (_token : String) : Nat := 30000

/-- Sampling interval of the `setInterval` loop in `startLocationTracking` of
`escort.tsx` (line 106, comment "30 seconds"). -/
def escortIntervalMs (_token : String) : Nat := 30000

/-- Modelled from the spec: "The 30-second cadence is a default and must be
configurable" — a tracking loop's cadence is configurable exactly when two
invocations of the operation can use different sampling intervals. -/
def intervalIsConfigurable (intervalOf : String → Nat) : Prop :=
  ∃ t₁ t₂ : String, intervalOf t₁ ≠ intervalOf t₂

/-- Location used by the legacy video report's `submitReport`
(`unnamed/part_002` lines 190-197): the location held in state, else a fresh
GPS fix, else the hard-coded default coordinate — the same fallback chain as
the audio report. -/
def legacyVideoResolveLocation (stateLoc gpsFix : Option Coords) : Coords :=
  match stateLoc with
  | some l => l
  | none =>
      match gpsFix with
      | some g => g
      | none => defaultCoords

/-- Location point captured at t = 0 s (spec scenario, §8). -/
def trackPoint0 : LocationEntry :=
  { latitude := 9, longitude := 8, timestamp := 0, accuracy := none }

/-- Location point captured at t = 15 s, delivered out of order. -/
def trackPoint15 : LocationEntry :=
  { latitude := 9, longitude := 8, timestamp := 15000, accuracy := none }

/-- Location point captured at t = 30 s. -/
def trackPoint30 : LocationEntry :=
  { latitude := 9, longitude := 8, timestamp := 30000, accuracy := none }

/-- Concrete PIN-entry state with three digits typed and no wrong attempt. -/
def pinStateThreeDigits : PinState :=
  { screen := Screen.pin_entry
    pinDigits := [1, 2, 3]
    pinError := ""
    wrongAttempts := 0 }

/-- Concrete PIN-entry state with three digits typed after one wrong
attempt. -/
def pinStateOneWrong : PinState :=
  { screen := Screen.pin_entry
    pinDigits := [1, 2, 3]
    pinError := ""
    wrongAttempts := 1 }

/-- C1: for every activation request, selecting medical or fire routes to an
emergency-service contact display and issues no session-activation call to
the backend, whatever the environment; every other category routes to
`activatePanicMode`, which issues exactly one responder-visible session
activation when the location permission is granted, the GPS fix is obtained
and a token is stored (each of its abort paths — permission denied, the
position request throwing, no stored token — returns before the POST). -/
theorem medicalFire_contacts_security_activates_once
    (c : Category) (env : ActivationEnv) :
    handleCategorySelect Category.medical =
        CategoryRoute.showContacts ContactList.ambulance ∧
    handleCategorySelect Category.fire =
        CategoryRoute.showContacts ContactList.fire ∧
    routeActivateCalls env (handleCategorySelect Category.medical) = 0 ∧
    routeActivateCalls env (handleCategorySelect Category.fire) = 0 ∧
    (c ≠ Category.medical → c ≠ Category.fire →
      handleCategorySelect c = CategoryRoute.activatePanic c ∧
      (env.foregroundGranted = true → env.gpsFix.isSome = true →
        env.token.isSome = true →
        routeActivateCalls env (handleCategorySelect c) = 1)) := by
  refine ⟨rfl, rfl, rfl, rfl, fun hm hf => ?_⟩
  have hsel : handleCategorySelect c = CategoryRoute.activatePanic c := by
    cases c <;> simp_all [handleCategorySelect, SECURITY_EMERGENCIES]
  refine ⟨hsel, fun hg hfix ht => ?_⟩
  rw [hsel]
  obtain ⟨fix, hfx⟩ := Option.isSome_iff_exists.mp hfix
  simp [routeActivateCalls, activatePanicMode_activateCalls, hg, hfx, ht]

/-- Witness for C1 at the robbery category with permission granted, a GPS fix
obtained and a token stored. -/
theorem medicalFire_contacts_security_activates_once_witness :
    handleCategorySelect Category.robbery =
        CategoryRoute.activatePanic Category.robbery ∧
    routeActivateCalls
        { foregroundGranted := true
          gpsFix := some { lat := 9, lng := 8 }
          token := some "tok" }
        (handleCategorySelect Category.robbery) = 1 := by
  have h := medicalFire_contacts_security_activates_once Category.robbery
    { foregroundGranted := true
      gpsFix := some { lat := 9, lng := 8 }
      token := some "tok" }
  have h5 := h.2.2.2.2 (by decide) (by decide)
  exact ⟨h5.1, h5.2 rfl rfl rfl⟩

/-- C2: activating a second time while a panic session is already active is
idempotent — the first visit activates once and persists the session id, the
second visit resumes the same id with no further activation call and leaves
the local state unchanged; likewise `checkPanicState` issues no activation
call when a session is believed active. -/
theorem second_activation_resumes_existing_session
    (store : LocalStore) (s₁ s₂ : String) (c₁ c₂ : Category)
    (h : store.active_panic = none) :
    (openPanicScreen store s₁ c₁).1.activateCalls = 1 ∧
    (openPanicScreen store s₁ c₁).1.panicId = some s₁ ∧
    (openPanicScreen (openPanicScreen store s₁ c₁).2 s₂ c₂).1.panicId = some s₁ ∧
    (openPanicScreen (openPanicScreen store s₁ c₁).2 s₂ c₂).1.activateCalls = 0 ∧
    (openPanicScreen (openPanicScreen store s₁ c₁).2 s₂ c₂).2 =
        (openPanicScreen store s₁ c₁).2 ∧
    checkActivePanic (openPanicScreen store s₁ c₁).2 =
        { panicId := some s₁, isTracking := true,
          showCategoryModal := false, activateCalls := 0 } ∧
    checkPanicState_activateCalls true = 0 := by
  obtain ⟨ap⟩ := store
  simp only at h
  subst h
  exact ⟨rfl, rfl, rfl, rfl, rfl, rfl, rfl⟩

/-- Witness for C2 on an empty local store with two successive activation
attempts. -/
theorem second_activation_resumes_existing_session_witness :
    (openPanicScreen { active_panic := none } "panic-1" Category.robbery).1.activateCalls
        = 1 ∧
    (openPanicScreen { active_panic := none } "panic-1" Category.robbery).1.panicId
        = some "panic-1" ∧
    (openPanicScreen
        (openPanicScreen { active_panic := none } "panic-1" Category.robbery).2
        "panic-2" Category.violence).1.panicId = some "panic-1" ∧
    (openPanicScreen
        (openPanicScreen { active_panic := none } "panic-1" Category.robbery).2
        "panic-2" Category.violence).1.activateCalls = 0 ∧
    (openPanicScreen
        (openPanicScreen { active_panic := none } "panic-1" Category.robbery).2
        "panic-2" Category.violence).2 =
        (openPanicScreen { active_panic := none } "panic-1" Category.robbery).2 ∧
    checkActivePanic
        (openPanicScreen { active_panic := none } "panic-1" Category.robbery).2 =
        { panicId := some "panic-1", isTracking := true,
          showCategoryModal := false, activateCalls := 0 } ∧
    checkPanicState_activateCalls true = 0 := by
  have h := second_activation_resumes_existing_session
    { active_panic := none } "panic-1" "panic-2" Category.robbery Category.violence rfl
  exact h

/-- C6: in both deactivation handlers, when a tracking timer is running it is
cleared before the user-facing confirmation that tracking has stopped: the
trace never shows `confirmStopped` before `clearTrackingTimer`, and the clear
effect itself is always present. -/
theorem timer_cleared_before_safe_confirmation
    (hasElapsed postOk : Bool) (token : Option String) :
    clearedBeforeConfirm (deactivatePanicMode true hasElapsed token postOk) = true ∧
    Effect.clearTrackingTimer ∈ deactivatePanicMode true hasElapsed token postOk ∧
    clearedBeforeConfirm (markSafeConfirm true token postOk) = true ∧
    Effect.clearTrackingTimer ∈ markSafeConfirm true token postOk := by
  cases token <;> cases hasElapsed <;> cases postOk <;>
    simp [deactivatePanicMode, markSafeConfirm, clearedBeforeConfirm]

/-- Counterexample to C9: none of the location-tracking loops has a
configurable sampling interval — every invocation of each loop uses the same
hard-coded cadence, so no two invocations can differ. -/
theorem tracking_interval_not_configurable :
    ¬ intervalIsConfigurable panicForegroundIntervalMs ∧
    ¬ intervalIsConfigurable panicBackgroundIntervalMs ∧
    ¬ intervalIsConfigurable pinPanicIntervalMs ∧
    ¬ intervalIsConfigurable escortIntervalMs := by
  refine ⟨?_, ?_, ?_, ?_⟩ <;> rintro ⟨t₁, t₂, hne⟩ <;> exact hne rfl

/-- C9 (amended): the sampling cadence of every location-tracking loop is the
fixed literal 30000 ms; it is not a parameter of the operation. -/
theorem tracking_interval_fixed_30000 (token : String) :
    panicForegroundIntervalMs token = 30000 ∧
    panicBackgroundIntervalMs token = 30000 ∧
    pinPanicIntervalMs token = 30000 ∧
    escortIntervalMs token = 30000 :=
  ⟨rfl, rfl, rfl, rfl⟩

/-- C8: an upload that fails (network error) or cannot start (offline) always
offers the save-locally option, and `saveReportLocally` appends exactly one
entry to the `pending_video_reports` queue carrying the full payload metadata
and the pending upload status — the report is never silently lost. -/
theorem failed_upload_offers_local_pending_save
    (l : Coords) (gpsFix : Option Coords) (t : String)
    (pending : List PendingReport) (nowId createdAt uriVal caption : String)
    (anonymous : Bool) (acc : Rat) (duration : Nat) :
    offersLocalSave (videoSubmitReport (some l) gpsFix true (some t) false) = true ∧
    offersLocalSave (videoSubmitReport (some l) gpsFix false (some t) false) = true ∧
    saveReportLocally pending nowId createdAt (some uriVal) caption anonymous
        (some { coords := l, accuracy := some acc }) duration =
      pending ++
        [{ id := nowId
           uri := some uriVal
           caption := if caption = "" then "Live security report" else caption
           is_anonymous := anonymous
           latitude := l.lat
           longitude := l.lng
           accuracy := acc
           duration_seconds := duration
           created_at := createdAt
           upload_status := "pending" }] := by
  refine ⟨rfl, rfl, rfl⟩

/-- Counterexample to C7: with no geolocation available (no state location,
no GPS fix), the audio report is submitted with the fabricated default
coordinate (9.0820, 8.6753) instead of being rejected with a
location-required failure; the legacy video report substitutes the same
default. -/
theorem audio_submits_fabricated_default_coords :
    audioSubmitReport none none (some "tok") =
      AudioSubmitOutcome.submitted defaultCoords ∧
    legacyVideoResolveLocation none none = defaultCoords ∧
    defaultCoords.lat = 9082 / 1000 ∧ defaultCoords.lng = 86753 / 10000 :=
  ⟨rfl, rfl, rfl, rfl⟩

/-- C7 (amended): the enhanced video-report flow rejects a submission with a
location-required failure whenever no geolocation can be obtained (before any
other check), and falls back to offering the local pending queue when offline
or when the upload fails; the audio-report and legacy video-report flows
instead substitute the default coordinate (9.0820, 8.6753) and submit. -/
theorem video_rejects_without_location
    (isOnline uploadOk : Bool) (token : Option String)
    (l : Coords) (gpsFix : Option Coords) (t : String) :
    videoSubmitReport none none isOnline token uploadOk =
        VideoSubmitOutcome.locationRequired ∧
    offersLocalSave (videoSubmitReport (some l) gpsFix false (some t) uploadOk)
        = true ∧
    offersLocalSave (videoSubmitReport (some l) gpsFix true (some t) false)
        = true ∧
    audioResolveLocation none none = defaultCoords ∧
    legacyVideoResolveLocation none none = defaultCoords :=
  ⟨rfl, rfl, rfl, rfl, rfl⟩

/-- Counterexample to C3: after points at t = 0 s and t = 30 s are stored, an
out-of-order point captured at t = 15 s is not dropped — the merge inserts it
into its sorted position (newest first), re-sorting the list in place. -/
theorem out_of_order_point_inserted_not_dropped :
    mergeLocationHistory [trackPoint30, trackPoint0] [trackPoint15] =
      [trackPoint30, trackPoint15, trackPoint0] ∧
    trackPoint15 ∈ mergeLocationHistory [trackPoint30, trackPoint0] [trackPoint15] := by
  decide

/-- C3 (amended): the stored location history stays sorted by capture
timestamp (descending, newest first) and deduplicated by exact timestamp
after any merge of ingested points; out-of-order entries are inserted into
their sorted position rather than dropped, and every stored entry comes from
the previous history or from the ingested batch. -/
theorem merged_history_sorted_and_deduped
    (prev incoming : List LocationEntry)
    (hs : List.Sorted histOrder prev)
    (hp : (prev.map (fun l => l.timestamp)).Nodup)
    (hi : (incoming.map (fun l => l.timestamp)).Nodup) :
    List.Sorted histOrder (mergeLocationHistory prev incoming) ∧
    ((mergeLocationHistory prev incoming).map (fun l => l.timestamp)).Nodup ∧
    ∀ e ∈ mergeLocationHistory prev incoming, e ∈ prev ∨ e ∈ incoming := by
  by_cases hemp : newLocationEntries prev incoming = []
  · simp only [mergeLocationHistory, if_pos hemp]
    exact ⟨hs, hp, fun e he => Or.inl he⟩
  · simp only [mergeLocationHistory, if_neg hemp]
    have hperm :=
      List.perm_insertionSort histOrder (prev ++ newLocationEntries prev incoming)
    refine ⟨List.sorted_insertionSort histOrder _, ?_, ?_⟩
    · refine ((hperm.map (fun l => l.timestamp)).nodup_iff).mpr ?_
      rw [List.map_append]
      refine List.Nodup.append hp ?_ ?_
      · exact List.Nodup.sublist
          ((List.filter_sublist incoming).map (fun l => l.timestamp)) hi
      · intro a ha hb
        obtain ⟨l, hl, rfl⟩ := List.mem_map.mp hb
        have hfl := List.mem_filter.mp hl
        exact (of_decide_eq_true hfl.2) ha
    · intro e he
      rcases List.mem_append.mp (hperm.mem_iff.mp he) with h | h
      · exact Or.inl h
      · exact Or.inr (List.mem_filter.mp h).1

/-- Witness for C3 (amended) on the spec scenario: stored points at t = 30 s
and t = 0 s, ingesting the out-of-order point at t = 15 s. -/
theorem merged_history_sorted_and_deduped_witness :
    List.Sorted histOrder
        (mergeLocationHistory [trackPoint30, trackPoint0] [trackPoint15]) ∧
    ((mergeLocationHistory [trackPoint30, trackPoint0] [trackPoint15]).map
        (fun l => l.timestamp)).Nodup ∧
    ∀ e ∈ mergeLocationHistory [trackPoint30, trackPoint0] [trackPoint15],
      e ∈ [trackPoint30, trackPoint0] ∨ e ∈ [trackPoint15] :=
  merged_history_sorted_and_deduped [trackPoint30, trackPoint0] [trackPoint15]
    (by decide) (by decide) (by decide)

/-- Counterexample to C4: from one prior wrong attempt, completing the
correct default PIN (1-2-3-4) shows the active screen but does NOT reset the
wrong-attempt counter to zero — it stays at 1. -/
theorem correct_pin_does_not_reset_counter :
    (handlePinInput none pinStateOneWrong 4).screen = Screen.active ∧
    (handlePinInput none pinStateOneWrong 4).wrongAttempts = 1 ∧
    (handlePinInput none pinStateOneWrong 4).wrongAttempts ≠ 0 := by
  decide

/-- C4 (amended): completing a 4-digit entry that is rejected increments the
wrong-attempt counter, and when the counter reaches 2 the disguise screen is
shown for the rest of the foreground session; a correct PIN entry shows the
active screen but leaves the wrong-attempt counter unchanged (it is not reset
to zero). -/
theorem pin_attempt_counter_behaviour
    (stored : Option (List (Fin 10))) (st : PinState) (d : Fin 10)
    (hlen : st.pinDigits.length = 3) :
    (pinAccepts stored (st.pinDigits ++ [d]) = true →
      (handlePinInput stored st d).screen = Screen.active ∧
      (handlePinInput stored st d).wrongAttempts = st.wrongAttempts) ∧
    (pinAccepts stored (st.pinDigits ++ [d]) = false →
      (handlePinInput stored st d).wrongAttempts = st.wrongAttempts + 1 ∧
      (1 ≤ st.wrongAttempts →
        (handlePinInput stored st d).screen = Screen.disguise) ∧
      (st.wrongAttempts = 0 →
        (handlePinInput stored st d).screen = st.screen ∧
        (handlePinInput stored st d).pinError = "Incorrect PIN. Try again.")) := by
  have hnot4 : ¬ 4 ≤ st.pinDigits.length := by omega
  have hlen4 : (st.pinDigits ++ [d]).length = 4 := by simp [hlen]
  constructor
  · intro hacc
    simp [handlePinInput, hnot4, hlen4, hacc]
  · intro hacc
    by_cases h1 : 1 ≤ st.wrongAttempts
    · have h2 : 2 ≤ st.wrongAttempts + 1 := by omega
      simp [handlePinInput, hnot4, hlen4, hacc, handleWrongPin, h2]
      omega
    · have h0 : st.wrongAttempts = 0 := by omega
      have h2 : ¬ 2 ≤ st.wrongAttempts + 1 := by omega
      simp [handlePinInput, hnot4, hlen4, hacc, handleWrongPin, h2, h0]

/-- Witness for C4 (amended): three digits typed after one wrong attempt,
completing with a digit that does not match the default PIN. -/
theorem pin_attempt_counter_behaviour_witness :
    (pinAccepts none (pinStateOneWrong.pinDigits ++ [5]) = true →
      (handlePinInput none pinStateOneWrong 5).screen = Screen.active ∧
      (handlePinInput none pinStateOneWrong 5).wrongAttempts =
        pinStateOneWrong.wrongAttempts) ∧
    (pinAccepts none (pinStateOneWrong.pinDigits ++ [5]) = false →
      (handlePinInput none pinStateOneWrong 5).wrongAttempts =
        pinStateOneWrong.wrongAttempts + 1 ∧
      (1 ≤ pinStateOneWrong.wrongAttempts →
        (handlePinInput none pinStateOneWrong 5).screen = Screen.disguise) ∧
      (pinStateOneWrong.wrongAttempts = 0 →
        (handlePinInput none pinStateOneWrong 5).screen = pinStateOneWrong.screen ∧
        (handlePinInput none pinStateOneWrong 5).pinError =
          "Incorrect PIN. Try again.")) :=
  pin_attempt_counter_behaviour none pinStateOneWrong 5 rfl

/-- C5: on a foreground transition while the device locally believes a panic
session is active, the state machine always enters the PIN-entry screen
first — never the active screen — both in the AppState listener and in the
mount-time check, and the only way `handlePinInput` reaches the active screen
from PIN entry is a successful PIN validation. -/
theorem foreground_requires_pin_before_active
    (prev next : RNAppState) (scr : Screen)
    (hprev : prev = RNAppState.inactive ∨ prev = RNAppState.background)
    (hnext : next = RNAppState.active) :
    onAppStateChange true prev next scr = Screen.pin_entry ∧
    checkPanicStateScreen true = Screen.pin_entry ∧
    Screen.pin_entry ≠ Screen.active ∧
    (∀ (stored : Option (List (Fin 10))) (st : PinState) (d : Fin 10),
      st.screen = Screen.pin_entry →
      (handlePinInput stored st d).screen = Screen.active →
      pinAccepts stored (st.pinDigits ++ [d]) = true) := by
  refine ⟨?_, rfl, by decide, ?_⟩
  · have hcond : (prev = RNAppState.inactive ∨ prev = RNAppState.background) ∧
        next = RNAppState.active := ⟨hprev, hnext⟩
    simp [onAppStateChange, hcond]
  · intro stored st d hscr hres
    by_cases hacc : pinAccepts stored (st.pinDigits ++ [d]) = true
    · exact hacc
    · exfalso
      rw [Bool.not_eq_true] at hacc
      by_cases h4 : 4 ≤ st.pinDigits.length
      · simp only [handlePinInput, if_pos h4] at hres
        rw [hscr] at hres
        exact absurd hres (by decide)
      · by_cases hl3 : st.pinDigits.length = 3
        · by_cases h2 : 2 ≤ st.wrongAttempts + 1
          · simp [handlePinInput, h4, hl3, hacc, handleWrongPin, h2] at hres
          · simp [handlePinInput, h4, hl3, hacc, handleWrongPin, h2, hscr] at hres
        · simp [handlePinInput, h4, hl3, hscr] at hres

/-- Witness for C5 at a background-to-active transition from the activating
screen. -/
theorem foreground_requires_pin_before_active_witness :
    onAppStateChange true RNAppState.background RNAppState.active
        Screen.activating = Screen.pin_entry ∧
    checkPanicStateScreen true = Screen.pin_entry ∧
    Screen.pin_entry ≠ Screen.active ∧
    (∀ (stored : Option (List (Fin 10))) (st : PinState) (d : Fin 10),
      st.screen = Screen.pin_entry →
      (handlePinInput stored st d).screen = Screen.active →
      pinAccepts stored (st.pinDigits ++ [d]) = true) :=
  foreground_requires_pin_before_active RNAppState.background RNAppState.active
    Screen.activating (Or.inr rfl) rfl

/-- C10: with no security PIN stored on the device, completing a 4-digit
entry reaches the active screen exactly when the entered sequence is 1-2-3-4;
any other 4-digit sequence is treated as a wrong attempt (the counter is
incremented and the active screen is not shown). -/
theorem default_pin_accepts_exactly_1234
    (st : PinState) (d : Fin 10)
    (hscr : st.screen = Screen.pin_entry)
    (hlen : st.pinDigits.length = 3) :
    ((handlePinInput none st d).screen = Screen.active ↔
      st.pinDigits ++ [d] = pin1234) ∧
    (st.pinDigits ++ [d] ≠ pin1234 →
      (handlePinInput none st d).wrongAttempts = st.wrongAttempts + 1) := by
  have hnot4 : ¬ 4 ≤ st.pinDigits.length := by omega
  have hlen4 : (st.pinDigits ++ [d]).length = 4 := by simp [hlen]
  by_cases heq : st.pinDigits ++ [d] = pin1234
  · simp [handlePinInput, hnot4, hlen, hlen4, heq, pinAccepts, pin1234]
  · have hacc : pinAccepts none (st.pinDigits ++ [d]) = false := by
      simp [pinAccepts, heq]
    by_cases h2 : 2 ≤ st.wrongAttempts + 1
    · simp [handlePinInput, hnot4, hlen4, hacc, handleWrongPin, h2, heq]
    · simp [handlePinInput, hnot4, hlen4, hacc, handleWrongPin, h2, heq, hscr]

/-- Witness for C10: three default digits typed, completing with 4 on a
device with no stored PIN. -/
theorem default_pin_accepts_exactly_1234_witness :
    ((handlePinInput none pinStateThreeDigits 4).screen = Screen.active ↔
      pinStateThreeDigits.pinDigits ++ [4] = pin1234) ∧
    (pinStateThreeDigits.pinDigits ++ [4] ≠ pin1234 →
      (handlePinInput none pinStateThreeDigits 4).wrongAttempts =
        pinStateThreeDigits.wrongAttempts + 1) :=
  default_pin_accepts_exactly_1234 pinStateThreeDigits 4 rfl rfl
